import Mathlib

/-!
Shallow embedding of the Dutch mortgage / buy-vs-rent calculator (`src/app.py`).

Python floats are modelled as exact rationals (`ℚ`); Python runtime errors
(`ZeroDivisionError`, `IndexError`, `ValueError`) are modelled with an explicit
`Except PyErr` result; Python list slices (which clamp out-of-range bounds)
become `drop`/`take`; the Python `dict` keyed by `str(year)` becomes an
association list in insertion order.
-/

/-- Python runtime errors that the embedded functions can raise. -/
inductive PyErr where
  | zeroDivisionError : PyErr
  | indexError : PyErr
  | valueError : String → PyErr
deriving DecidableEq, Repr

/-- Decidable equality of embedded results, used to evaluate the embedding at
concrete inputs. -/
instance {e a : Type} [DecidableEq e] [DecidableEq a] : DecidableEq (Except e a) := fun x y =>
  match x, y with
  | .error u, .error v =>
    if h : u = v then isTrue (by rw [h]) else isFalse (by intro hc; injection hc; contradiction)
  | .ok u, .ok v =>
    if h : u = v then isTrue (by rw [h]) else isFalse (by intro hc; injection hc; contradiction)
  | .error _, .ok _ => isFalse (by intro hc; injection hc)
  | .ok _, .error _ => isFalse (by intro hc; injection hc)

/-- `convert_percentages_to_decimal(*rates)`: divide every rate by 100. -/
def convert_percentages_to_decimal (rates : List ℚ) : List ℚ :=
  rates.map (fun rate => rate / 100)

/-- `calculate_loan_details(house_value, loan_percentage, loan_rate, loan_years, loan_type)`.
Returns `(down_payment, loan_amount, monthly_payments)`.  The Annuity branch
performs the division `(L·r·(1+r)^n) / ((1+r)^n − 1)`, which in Python raises
`ZeroDivisionError` when the denominator is zero; the embedding tests the
denominator explicitly.  An unknown `loan_type` raises `ValueError`. -/
def calculate_loan_details (house_value loan_percentage loan_rate : ℚ)
    (loan_years : ℕ) (loan_type : String) : Except PyErr (ℚ × ℚ × List ℚ) :=
  let loan_amount := house_value * loan_percentage
  let down_payment := house_value - loan_amount
  let monthly_interest_rate := loan_rate / 12
  let loan_term_months := loan_years * 12
  if loan_type = "Annuity" then
    let denom := (1 + monthly_interest_rate) ^ loan_term_months - 1
    if denom = 0 then
      .error .zeroDivisionError
    else
      let monthly_payment :=
        (loan_amount * monthly_interest_rate * (1 + monthly_interest_rate) ^ loan_term_months) / denom
      .ok (down_payment, loan_amount, List.replicate loan_term_months monthly_payment)
  else if loan_type = "Linear" then
    .ok (down_payment, loan_amount,
      (List.range loan_term_months).map (fun m : ℕ =>
        loan_amount / loan_term_months
          + loan_amount * monthly_interest_rate * (1 - (m : ℚ) / loan_term_months)))
  else
    .error (.valueError "Invalid loan type")

/-- The Python slice `monthly_payments[(year-1)*12 : year*12]`: 12 entries
starting at month `(year-1)*12`, clamped to the list length (Python slices
never raise). -/
def yearSlice (monthly_payments : List ℚ) (year : ℕ) : List ℚ :=
  (monthly_payments.drop ((year - 1) * 12)).take 12

/-- Running value of `cumulative_rent_cost` in `calculate_cumulative_costs`
after `year` iterations: year `y+1` adds `initial_rent·(1+rent_inflation)^y`. -/
def cumulative_rent_cost (initial_rent rent_inflation_rate : ℚ) : ℕ → ℚ
  | 0 => 0
  | y + 1 => cumulative_rent_cost initial_rent rent_inflation_rate y
      + initial_rent * (1 + rent_inflation_rate) ^ y

/-- Running value of `cumulative_owning_cost` in `calculate_cumulative_costs`
after `year` iterations: starts at `initial_investment`, year `y+1` adds the
sum of that year's payment slice plus
`initial_maintenance_cost·(1+maintenance_inflation)^y`. -/
def cumulative_owning_cost (initial_maintenance_cost maintenance_inflation_rate : ℚ)
    (monthly_payments : List ℚ) (initial_investment : ℚ) : ℕ → ℚ
  | 0 => initial_investment
  | y + 1 => cumulative_owning_cost initial_maintenance_cost maintenance_inflation_rate
        monthly_payments initial_investment y
      + ((yearSlice monthly_payments (y + 1)).sum
        + initial_maintenance_cost * (1 + maintenance_inflation_rate) ^ y)

/-- `calculate_cumulative_costs(...)`: the pair
`(renting_cumulative_costs, owning_cumulative_costs)`, one entry appended per
year `1..max_sell_year`.  (`house_value` and `appreciation_rate` are accepted
but unused, as in the source.) -/
def calculate_cumulative_costs (house_value initial_rent rent_inflation_rate
    appreciation_rate initial_maintenance_cost maintenance_inflation_rate : ℚ)
    (monthly_payments : List ℚ) (max_sell_year : ℕ) (initial_investment : ℚ) :
    List ℚ × List ℚ :=
  ((List.range max_sell_year).map
      (fun i => cumulative_rent_cost initial_rent rent_inflation_rate (i + 1)),
   (List.range max_sell_year).map
      (fun i => cumulative_owning_cost initial_maintenance_cost maintenance_inflation_rate
        monthly_payments initial_investment (i + 1)))

/-- `determine_break_even_year(renting_costs, owning_costs, years)`: walk
`zip(renting, owning)` with its enumeration index; on the first position where
`own_cost < rent_cost` return `years[i]` (an `IndexError` if `years` is too
short, as in Python); return `None` when the zip is exhausted. -/
def determine_break_even_year : List ℚ → List ℚ → List ℕ → Except PyErr (Option ℕ)
  | rent_cost :: rs, own_cost :: os, ys =>
    if own_cost < rent_cost then
      match ys with
      | y :: _ => .ok (some y)
      | [] => .error .indexError
    else
      determine_break_even_year rs os ys.tail
  | _, _, _ => .ok none

/-- `calculate_post_sale_raw_cash(house_value, appreciation_rate, sell_tax_rate, years)`:
for each year, `value = houseValue·(1+appreciation)^(year−1)`,
`profit = value − houseValue`, entry `value − profit·sell_tax_rate`. -/
def calculate_post_sale_raw_cash (house_value appreciation_rate sell_tax_rate : ℚ)
    (years : List ℕ) : List ℚ :=
  years.map (fun year =>
    let property_value := house_value * (1 + appreciation_rate) ^ (year - 1)
    let profit := property_value - house_value
    property_value - profit * sell_tax_rate)

/-- Python's `round(x, 2)` modelled on `ℚ`: scale by 100, round half to even,
scale back. -/
def pyRound2 (x : ℚ) : ℚ :=
  let y := x * 100
  let f : ℤ := Int.floor y
  let r := y - (f : ℚ)
  let n : ℤ :=
    if r < 1 / 2 then f
    else if 1 / 2 < r then f + 1
    else if f % 2 = 0 then f else f + 1
  (n : ℚ) / 100

/-- `calculate_post_sale_cash(house_value, appreciation_rate, sell_tax_rate, owning_costs, years)`:
a dict (association list, insertion order) mapping `str(year)` to
`round(value − owning_costs[year−1] − profit·sell_tax_rate, 2)` with
`value = houseValue·(1+appreciation)^year`; indexing `owning_costs[year−1]`
out of range raises `IndexError`. -/
def calculate_post_sale_cash (house_value appreciation_rate sell_tax_rate : ℚ)
    (owning_costs : List ℚ) : List ℕ → Except PyErr (List (String × ℚ))
  | [] => .ok []
  | year :: years =>
    match owning_costs[year - 1]? with
    | none => .error .indexError
    | some oc =>
      let property_value := house_value * (1 + appreciation_rate) ^ year
      let profit := property_value - house_value
      let sell_tax := profit * sell_tax_rate
      let net_cash_after_sale := property_value - oc - sell_tax
      match calculate_post_sale_cash house_value appreciation_rate sell_tax_rate
          owning_costs years with
      | .error e => .error e
      | .ok rest => .ok ((toString year, pyRound2 net_cash_after_sale) :: rest)

/-- The scalar arguments of `calculate_cash_flow_analysis`, bundled. -/
structure CFCtx where
  annual_salary : ℚ
  salary_growth_rate : ℚ
  opportunity_cost_rate : ℚ
  monthly_payments : List ℚ
  initial_rent : ℚ
  rent_inflation_rate : ℚ
  initial_investment : ℚ
  maintenance_costs : List ℚ
  annual_expenditure : ℚ
  sale_after_tax : List ℚ
  which_year_to_sell : ℕ
deriving DecidableEq, Repr

/-- Loop state of `calculate_cash_flow_analysis`: the mutated scalars and the
three accumulated per-year lists. -/
structure CFState where
  salary : ℚ
  cash_rent : ℚ
  cash_buy : ℚ
  rents : List ℚ
  buys : List ℚ
  buySells : List ℚ
deriving DecidableEq, Repr

/-- One iteration (`year` ≥ 1) of the loop in `calculate_cash_flow_analysis`:
grow the salary, update the rent and buy balances (cash delta, then
`×(1+opportunity_cost_rate)`), then append to the buy-and-sell series by
comparing `year` with `which_year_to_sell`.  Python's `maintenance_costs[year-1]`,
`sale_after_tax[year-1]` and `cumulative_cash_buy_and_sell[-1]` raise
`IndexError` out of range / on an empty list. -/
def cfStep (c : CFCtx) (year : ℕ) (s : CFState) : Except PyErr CFState :=
  let salary := s.salary * (1 + c.salary_growth_rate)
  let net_savings := salary - c.annual_expenditure
  let rent_cost := c.initial_rent * (1 + c.rent_inflation_rate) ^ (year - 1)
  let cash_rent := (s.cash_rent + (net_savings - rent_cost)) * (1 + c.opportunity_cost_rate)
  match c.maintenance_costs[year - 1]? with
  | none => .error .indexError
  | some m =>
    let total_buy_cost := (yearSlice c.monthly_payments year).sum + m
    let cash_buy := (s.cash_buy + (net_savings - total_buy_cost)) * (1 + c.opportunity_cost_rate)
    let rents := s.rents ++ [cash_rent]
    let buys := s.buys ++ [cash_buy]
    if year < c.which_year_to_sell then
      .ok ⟨salary, cash_rent, cash_buy, rents, buys, s.buySells ++ [cash_buy]⟩
    else if year = c.which_year_to_sell then
      match c.sale_after_tax[year - 1]? with
      | none => .error .indexError
      | some sa =>
        let cash := cash_buy + sa - (c.monthly_payments.drop (year * 12)).sum
        .ok ⟨salary, cash_rent, cash_buy, rents, buys, s.buySells ++ [cash]⟩
    else
      match s.buySells.getLast? with
      | none => .error .indexError
      | some prev =>
        let cash_buy_and_sell := (prev + (net_savings - m)) * (1 + c.opportunity_cost_rate)
        .ok ⟨salary, cash_rent, cash_buy, rents, buys, s.buySells ++ [cash_buy_and_sell]⟩

/-- The loop of `calculate_cash_flow_analysis` run for years `1..k`. -/
def cfRun (c : CFCtx) : ℕ → Except PyErr CFState
  | 0 => .ok ⟨c.annual_salary, c.initial_investment, c.initial_investment, [], [], []⟩
  | k + 1 => (cfRun c k).bind (cfStep c (k + 1))

/-- `calculate_cash_flow_analysis(...)`: run the yearly loop for
`1..max_years` and return
`(cumulative_cash_rent, cumulative_cash_buy, cumulative_cash_buy_and_sell)`. -/
def calculate_cash_flow_analysis (annual_salary salary_growth_rate opportunity_cost_rate : ℚ)
    (monthly_payments : List ℚ) (initial_rent rent_inflation_rate : ℚ) (max_years : ℕ)
    (initial_investment : ℚ) (maintenance_costs : List ℚ) (annual_expenditure : ℚ)
    (sale_after_tax : List ℚ) (which_year_to_sell : ℕ) :
    Except PyErr (List ℚ × List ℚ × List ℚ) :=
  (cfRun ⟨annual_salary, salary_growth_rate, opportunity_cost_rate, monthly_payments,
      initial_rent, rent_inflation_rate, initial_investment, maintenance_costs,
      annual_expenditure, sale_after_tax, which_year_to_sell⟩ max_years).map
    (fun s => (s.rents, s.buys, s.buySells))

/-- The analysis payload assembled by `analysis_handler` (the plot path, a
presentation concern, is omitted): either the break-even payload or the
cash-flow payload. -/
inductive AnalysisResult where
  | breakEven (break_even_year : Option ℕ) (renting_costs owning_costs : List ℚ)
      (post_sale_cash : List (String × ℚ)) : AnalysisResult
  | cashFlow (cash_rent cash_buy cash_buy_and_sell : List ℚ) : AnalysisResult
deriving DecidableEq, Repr

/-- `analysis_handler(mode, ...)`: decimalize the seven percentage inputs,
compute the loan details, then dispatch on `mode`.  The Python function has no
`else` branch: a mode other than the two defined strings falls through and
returns `None` (here `Except.ok none`). -/
def analysis_handler (mode : String) (house_value loan_percentage loan_rate_percentage : ℚ)
    (loan_years : ℕ)
    (appreciation_rate_percentage initial_maintenance_cost
      maintenance_inflation_rate_percentage initial_rent rent_inflation_rate_percentage
      sell_tax_rate_percentage : ℚ)
    (max_years : ℕ)
    (initial_investment annual_salary salary_growth_rate_percentage
      opportunity_cost_rate_percentage annual_expenditure : ℚ)
    (which_year_to_sell : ℕ) (mortgage_type : String) :
    Except PyErr (Option AnalysisResult) :=
  match convert_percentages_to_decimal [appreciation_rate_percentage,
      rent_inflation_rate_percentage, maintenance_inflation_rate_percentage,
      loan_rate_percentage, sell_tax_rate_percentage, salary_growth_rate_percentage,
      opportunity_cost_rate_percentage] with
  | [appreciation_rate, rent_inflation_rate, maintenance_inflation_rate, loan_rate,
     sell_tax_rate, salary_growth_rate, opportunity_cost_rate] =>
    match calculate_loan_details house_value loan_percentage loan_rate loan_years mortgage_type with
    | .error e => .error e
    | .ok (_, _, monthly_payments) =>
      if mode = "Break-even Analysis" then
        let costs := calculate_cumulative_costs house_value initial_rent rent_inflation_rate
          appreciation_rate initial_maintenance_cost maintenance_inflation_rate
          monthly_payments max_years initial_investment
        let years := (List.range max_years).map (fun i => i + 1)
        match determine_break_even_year costs.1 costs.2 years with
        | .error e => .error e
        | .ok break_even_year =>
          match calculate_post_sale_cash house_value appreciation_rate sell_tax_rate
              costs.2 years with
          | .error e => .error e
          | .ok post_sale_cash =>
            .ok (some (.breakEven break_even_year costs.1 costs.2 post_sale_cash))
      else if mode = "Overall Cash Flow Analysis" then
        let maintenance_costs := (List.range max_years).map
          (fun year => initial_maintenance_cost * (1 + maintenance_inflation_rate) ^ year)
        let sale_after_tax := calculate_post_sale_raw_cash house_value appreciation_rate
          sell_tax_rate ((List.range max_years).map (fun i => i + 1))
        match calculate_cash_flow_analysis annual_salary salary_growth_rate
            opportunity_cost_rate monthly_payments initial_rent rent_inflation_rate max_years
            initial_investment maintenance_costs annual_expenditure sale_after_tax
            which_year_to_sell with
        | .error e => .error e
        | .ok (cash_rent, cash_buy, cash_buy_and_sell) =>
          .ok (some (.cashFlow cash_rent cash_buy cash_buy_and_sell))
      else
        .ok none
  | _ => .error (.valueError "unreachable")

/-! Section: Closed recurrences for the cash-flow loop -/

/-- Net savings available in year `y` of the cash-flow loop: the salary after
`y` growth steps (growth is applied before the year is processed) minus the
annual expenditure. -/
def netSavings (c : CFCtx) (y : ℕ) : ℚ :=
  c.annual_salary * (1 + c.salary_growth_rate) ^ y - c.annual_expenditure

/-- The rent-strategy balance after year `y`. -/
def rentSeq (c : CFCtx) : ℕ → ℚ
  | 0 => c.initial_investment
  | y + 1 => (rentSeq c y
      + (netSavings c (y + 1) - c.initial_rent * (1 + c.rent_inflation_rate) ^ y))
      * (1 + c.opportunity_cost_rate)

/-- The buy-strategy balance after year `y`. -/
def buySeq (c : CFCtx) : ℕ → ℚ
  | 0 => c.initial_investment
  | y + 1 => (buySeq c y
      + (netSavings c (y + 1)
        - ((yearSlice c.monthly_payments (y + 1)).sum + c.maintenance_costs.getD y 0)))
      * (1 + c.opportunity_cost_rate)

/-- The buy-and-sell series entry of year `y ≥ 1`: mirrors `buySeq` before the
sale year, adds the sale proceeds and pays off the remaining scheduled
payments at the sale year, and compounds the previous entry afterwards. -/
def bsSeq (c : CFCtx) : ℕ → ℚ
  | 0 => c.initial_investment
  | y + 1 =>
    if y + 1 < c.which_year_to_sell then buySeq c (y + 1)
    else if y + 1 = c.which_year_to_sell then
      buySeq c (y + 1) + c.sale_after_tax.getD y 0
        - (c.monthly_payments.drop ((y + 1) * 12)).sum
    else (bsSeq c y + (netSavings c (y + 1) - c.maintenance_costs.getD y 0))
      * (1 + c.opportunity_cost_rate)

/-- The index of the first position where owning cost is strictly below renting
cost, over the zip of the two lists (none if no such position exists). -/
def firstBE : List ℚ → List ℚ → Option ℕ
  | rent_cost :: rs, own_cost :: os =>
    if own_cost < rent_cost then some 0 else (firstBE rs os).map (fun i => i + 1)
  | _, _ => none

/-! Section: Helper lemmas -/

theorem getElem?_eq_some_getD {l : List ℚ} {n : ℕ} (h : n < l.length) :
    l[n]? = some (l.getD n 0) := by
  simp [List.getD_eq_getElem?_getD, List.getElem?_eq_getElem h]

theorem getD_map_range (f : ℕ → ℚ) {n i : ℕ} (h : i < n) :
    ((List.range n).map f).getD i 0 = f i := by
  simp [List.getD_eq_getElem?_getD, List.getElem?_map, List.getElem?_range h]

theorem getLast?_map_range (f : ℕ → ℚ) {k : ℕ} (h : 1 ≤ k) :
    ((List.range k).map f).getLast? = some (f (k - 1)) := by
  cases k with
  | zero => omega
  | succ k => rw [List.range_succ, List.map_append]; simp

/-- Master characterisation of the cash-flow loop: with maintenance costs
covering all `k` years, a sell year ≥ 1, and sale proceeds available at the
sell year (if reached), the loop succeeds and its state after `k` years is
given exactly by the closed recurrences. -/
theorem cfRun_ok (c : CFCtx) (k : ℕ) (hm : k ≤ c.maintenance_costs.length)
    (hsy : 1 ≤ c.which_year_to_sell)
    (hsale : c.which_year_to_sell ≤ k → c.which_year_to_sell ≤ c.sale_after_tax.length) :
    cfRun c k = .ok ⟨c.annual_salary * (1 + c.salary_growth_rate) ^ k,
      rentSeq c k, buySeq c k,
      (List.range k).map (fun i => rentSeq c (i + 1)),
      (List.range k).map (fun i => buySeq c (i + 1)),
      (List.range k).map (fun i => bsSeq c (i + 1))⟩ := by
  induction k with
  | zero => simp [cfRun, rentSeq, buySeq]
  | succ k ih =>
    have hk : k < c.maintenance_costs.length := hm
    have ihe := ih (Nat.le_of_succ_le hm) (fun h => hsale (Nat.le_succ_of_le h))
    have hsal : c.annual_salary * (1 + c.salary_growth_rate) ^ k * (1 + c.salary_growth_rate)
        = c.annual_salary * (1 + c.salary_growth_rate) ^ (k + 1) := by
      rw [pow_succ, mul_assoc]
    rw [cfRun, ihe]
    show cfStep c (k + 1) _ = _
    rw [cfStep]
    simp only [Nat.add_sub_cancel, getElem?_eq_some_getD hk, hsal]
    have hrent : (rentSeq c k + (c.annual_salary * (1 + c.salary_growth_rate) ^ (k + 1)
          - c.annual_expenditure
        - c.initial_rent * (1 + c.rent_inflation_rate) ^ k)) * (1 + c.opportunity_cost_rate)
        = rentSeq c (k + 1) := by
      rw [rentSeq, netSavings]
    have hbuy : (buySeq c k + (c.annual_salary * (1 + c.salary_growth_rate) ^ (k + 1)
          - c.annual_expenditure
        - ((yearSlice c.monthly_payments (k + 1)).sum
          + c.maintenance_costs.getD k 0))) * (1 + c.opportunity_cost_rate)
        = buySeq c (k + 1) := by
      rw [buySeq, netSavings]
    by_cases hlt : k + 1 < c.which_year_to_sell
    · have hbs : bsSeq c (k + 1) = buySeq c (k + 1) := by rw [bsSeq, if_pos hlt]
      simp only [if_pos hlt, List.range_succ, List.map_append, List.map_cons, List.map_nil,
        Except.ok.injEq, CFState.mk.injEq, true_and]
      exact ⟨hrent, hbuy, by rw [hrent], by rw [hbuy], by rw [hbuy, hbs]⟩
    · simp only [if_neg hlt]
      by_cases heq : k + 1 = c.which_year_to_sell
      · have hsa : k < c.sale_after_tax.length := by
          have := hsale (by omega)
          omega
        have hbs : bsSeq c (k + 1) = buySeq c (k + 1) + c.sale_after_tax.getD k 0
            - (c.monthly_payments.drop ((k + 1) * 12)).sum := by
          rw [bsSeq, if_neg (by omega), if_pos heq]
        simp only [if_pos heq, getElem?_eq_some_getD hsa, List.range_succ, List.map_append,
          List.map_cons, List.map_nil, Except.ok.injEq, CFState.mk.injEq, true_and]
        exact ⟨hrent, hbuy, by rw [hrent], by rw [hbuy], by rw [hbuy, hbs]⟩
      · have hk1 : 1 ≤ k := by omega
        have hbs : bsSeq c (k + 1) = (bsSeq c k
            + (c.annual_salary * (1 + c.salary_growth_rate) ^ (k + 1) - c.annual_expenditure
              - c.maintenance_costs.getD k 0)) * (1 + c.opportunity_cost_rate) := by
          rw [bsSeq, if_neg hlt, if_neg heq, netSavings]
        have hlast : bsSeq c (k - 1 + 1) = bsSeq c k := by
          congr 1
          omega
        simp only [if_neg heq, getLast?_map_range _ hk1, hlast, List.range_succ,
          List.map_append, List.map_cons, List.map_nil, Except.ok.injEq, CFState.mk.injEq, true_and]
        exact ⟨hrent, hbuy, by rw [hrent], by rw [hbuy], by rw [hbs]⟩

/-! Section: C1: Annuity with zero rate -/

/-- C1: the claim says that for the Annuity method with `annualRate = 0` the
schedule computation succeeds with every payment equal to `L/n`.  On the code
this is false: with rate 0 the annuity denominator `(1+r)^n − 1` is zero and
the division raises `ZeroDivisionError` (the special case is absent).  This
theorem evaluates the code at the failing input (the app's default loan with
rate 0). -/
theorem C1_annuity_zero_rate_raises_division_by_zero :
    calculate_loan_details 300000 (7 / 10) 0 20 "Annuity"
      = .error .zeroDivisionError := by
  norm_num [calculate_loan_details]

/-! Section: C2: sell-year validation -/

/-- C2 counterexample: `which_year_to_sell = 2` lies outside `[1, 1]`
(`horizonYears = 1`), yet `calculate_cash_flow_analysis` succeeds instead of
failing with an `InvalidSellYear` error (no such validation exists in the
code). -/
theorem C2_counterexample_out_of_range_sell_year_succeeds :
    calculate_cash_flow_analysis 0 0 0 [] 0 0 1 0 [0] 0 [0] 2
      = .ok ([0], [0], [0]) := by
  norm_num [calculate_cash_flow_analysis, cfRun, cfStep, yearSlice, Except.bind, Except.map]

/-- Once the cash-flow loop has failed it stays failed. -/
theorem cfRun_error_propagates (c : CFCtx) (k : ℕ) (e : PyErr)
    (h : cfRun c k = .error e) : ∀ j, cfRun c (k + j) = .error e := by
  intro j
  induction j with
  | zero => exact h
  | succ j ih => rw [← Nat.add_assoc, cfRun, ih]; rfl

/-- With `which_year_to_sell = 0` the first year already takes the post-sale
branch and reads the last element of the still-empty buy-and-sell list: an
`IndexError`. -/
theorem cfRun_sell_year_zero_errors (c : CFCtx) (k : ℕ) (hk : 1 ≤ k)
    (hm : 1 ≤ c.maintenance_costs.length) (h0 : c.which_year_to_sell = 0) :
    cfRun c k = .error .indexError := by
  have h1 : cfRun c 1 = .error .indexError := by
    have hm0 : 0 < c.maintenance_costs.length := hm
    rw [cfRun, cfRun]
    show cfStep c 1 _ = _
    rw [cfStep]
    simp only [h0, Nat.sub_self, getElem?_eq_some_getD hm0]
    rfl
  obtain ⟨j, rfl⟩ : ∃ j, k = 1 + j := ⟨k - 1, by omega⟩
  exact cfRun_error_propagates c 1 _ h1 j

/-- C2 (amended): the code performs no sell-year validation at all and has no
`InvalidSellYear` error.  Instead: with `which_year_to_sell = 0` (below the
valid range) the simulation fails in year 1 with an `IndexError` from reading
the last element of the empty buy-and-sell list; with
`which_year_to_sell > max_years` (above the range) it succeeds; and inside
`[1, max_years]` (with maintenance and sale lists covering the horizon) it
also succeeds. -/
theorem C2_no_sell_year_validation (annual_salary salary_growth_rate
    opportunity_cost_rate : ℚ) (monthly_payments : List ℚ)
    (initial_rent rent_inflation_rate : ℚ) (max_years : ℕ) (initial_investment : ℚ)
    (maintenance_costs : List ℚ) (annual_expenditure : ℚ) (sale_after_tax : List ℚ)
    (which_year_to_sell : ℕ) :
    (which_year_to_sell = 0 → 1 ≤ max_years → 1 ≤ maintenance_costs.length →
      calculate_cash_flow_analysis annual_salary salary_growth_rate opportunity_cost_rate
        monthly_payments initial_rent rent_inflation_rate max_years initial_investment
        maintenance_costs annual_expenditure sale_after_tax which_year_to_sell
        = .error .indexError)
    ∧ (max_years < which_year_to_sell → max_years ≤ maintenance_costs.length →
      (calculate_cash_flow_analysis annual_salary salary_growth_rate opportunity_cost_rate
        monthly_payments initial_rent rent_inflation_rate max_years initial_investment
        maintenance_costs annual_expenditure sale_after_tax which_year_to_sell).isOk = true)
    ∧ (1 ≤ which_year_to_sell → which_year_to_sell ≤ max_years →
        max_years ≤ maintenance_costs.length →
        which_year_to_sell ≤ sale_after_tax.length →
      (calculate_cash_flow_analysis annual_salary salary_growth_rate opportunity_cost_rate
        monthly_payments initial_rent rent_inflation_rate max_years initial_investment
        maintenance_costs annual_expenditure sale_after_tax which_year_to_sell).isOk = true) := by
  refine ⟨fun h0 hmax hm => ?_, fun hgt hm => ?_, fun h1 h2 hm hs => ?_⟩
  · unfold calculate_cash_flow_analysis
    rw [cfRun_sell_year_zero_errors _ _ hmax hm h0]
    rfl
  · unfold calculate_cash_flow_analysis
    rw [cfRun_ok _ _ hm (show 1 ≤ which_year_to_sell by omega)
      (fun h => absurd (show which_year_to_sell ≤ max_years from h) (by omega))]
    rfl
  · unfold calculate_cash_flow_analysis
    rw [cfRun_ok _ _ hm h1 (fun _ => hs)]
    rfl

/-- C2 witness: instantiates `C2_no_sell_year_validation` at a concrete input
with `which_year_to_sell = 0`. -/
theorem C2_no_sell_year_validation_witness :
    calculate_cash_flow_analysis 0 0 0 [] 0 0 1 0 [0] 0 [0] 0 = .error .indexError :=
  (C2_no_sell_year_validation 0 0 0 [] 0 0 1 0 [0] 0 [0] 0).1 rfl (by decide) (by decide)

/-! Section: C7: payment-schedule invariants -/

/-- C7 counterexample: for the loan `houseValue = 100000`, `loanFraction = 1`,
`annualRate = 0`, `termYears = 1` under the Linear method, the schedule is
twelve equal payments of `100000/12`, so the second entry is not strictly
smaller than the first — refuting the claim that under the Linear method each
entry is strictly smaller than the preceding one for every loan. -/
theorem C7_counterexample_zero_rate_linear_constant :
    calculate_loan_details 100000 1 0 1 "Linear"
      = .ok (0, 100000, List.replicate 12 (25000 / 3))
    ∧ ¬((List.replicate 12 ((25000 : ℚ) / 3)).getD 1 0
        < (List.replicate 12 ((25000 : ℚ) / 3)).getD 0 0) := by
  constructor
  · norm_num [calculate_loan_details, List.range_succ, List.replicate,
      show ("Linear" = "Annuity") = False by simp]
  · norm_num [List.replicate]

/-- C7 (amended): every schedule returned by `calculate_loan_details` has
length `termYears × 12`; under the Annuity method all entries are equal; under
the Linear method consecutive entries strictly decrease provided
`loanAmount × annualRate > 0` (i.e. `houseValue·loanFraction·annualRate > 0`;
with a zero rate or a zero loan the Linear entries are all equal, so strict
decrease fails). -/
theorem C7_schedule_invariants (house_value loan_percentage loan_rate : ℚ)
    (loan_years : ℕ) (loan_type : String) (down_payment loan_amount : ℚ)
    (monthly_payments : List ℚ)
    (hok : calculate_loan_details house_value loan_percentage loan_rate loan_years loan_type
      = .ok (down_payment, loan_amount, monthly_payments)) :
    monthly_payments.length = loan_years * 12
    ∧ (loan_type = "Annuity" → ∀ a ∈ monthly_payments, ∀ b ∈ monthly_payments, a = b)
    ∧ (loan_type = "Linear" → 0 < house_value * loan_percentage * loan_rate →
        ∀ i, i + 1 < monthly_payments.length →
          monthly_payments.getD (i + 1) 0 < monthly_payments.getD i 0) := by
  rw [calculate_loan_details] at hok
  by_cases hA : loan_type = "Annuity"
  · rw [if_pos hA] at hok
    by_cases hd : (1 + loan_rate / 12) ^ (loan_years * 12) - 1 = 0
    · rw [if_pos hd] at hok
      exact absurd hok (by simp)
    · rw [if_neg hd] at hok
      simp only [Except.ok.injEq, Prod.mk.injEq] at hok
      obtain ⟨-, -, hmp⟩ := hok
      refine ⟨by rw [← hmp]; simp, fun _ a ha b hb => ?_, fun hL => ?_⟩
      · rw [← hmp] at ha hb
        rw [List.eq_of_mem_replicate ha, List.eq_of_mem_replicate hb]
      · rw [hA] at hL
        simp at hL
  · rw [if_neg hA] at hok
    by_cases hL : loan_type = "Linear"
    · rw [if_pos hL] at hok
      simp only [Except.ok.injEq, Prod.mk.injEq] at hok
      obtain ⟨-, -, hmp⟩ := hok
      refine ⟨by rw [← hmp]; simp, fun hA' => absurd hA' hA, fun _ hpos i hi => ?_⟩
      rw [← hmp] at hi ⊢
      rw [List.length_map, List.length_range] at hi
      rw [getD_map_range _ (by omega), getD_map_range _ (by omega)]
      have hn : (0 : ℚ) < ((loan_years * 12 : ℕ) : ℚ) := by
        exact_mod_cast Nat.pos_of_ne_zero (by omega)
      have key : house_value * loan_percentage / ((loan_years * 12 : ℕ) : ℚ)
            + house_value * loan_percentage * (loan_rate / 12)
              * (1 - ((i + 1 : ℕ) : ℚ) / ((loan_years * 12 : ℕ) : ℚ))
          = house_value * loan_percentage / ((loan_years * 12 : ℕ) : ℚ)
            + house_value * loan_percentage * (loan_rate / 12)
              * (1 - (i : ℚ) / ((loan_years * 12 : ℕ) : ℚ))
            - house_value * loan_percentage * loan_rate
              / (12 * ((loan_years * 12 : ℕ) : ℚ)) := by
        field_simp
        ring
      rw [key]
      have hpos' : 0 < house_value * loan_percentage * loan_rate
          / (12 * ((loan_years * 12 : ℕ) : ℚ)) :=
        div_pos hpos (mul_pos (by norm_num) hn)
      linarith
    · rw [if_neg hL] at hok
      exact absurd hok (by simp)

/-- C7 witness: instantiates `C7_schedule_invariants` at the concrete Linear
loan from the counterexample, extracting the length invariant. -/
theorem C7_schedule_invariants_witness :
    (List.replicate 12 ((25000 : ℚ) / 3)).length = 1 * 12 :=
  (C7_schedule_invariants 100000 1 0 1 "Linear" 0 100000 (List.replicate 12 (25000 / 3))
    (by norm_num [calculate_loan_details, List.range_succ, List.replicate,
      show ("Linear" = "Annuity") = False by simp])).1

/-! Section: C9: unknown analysis mode -/

/-- C9 counterexample: with `mode = "bogus"` (neither of the two defined
modes) and otherwise benign inputs, `analysis_handler` returns `Except.ok
none` — the Python function falls off the end and returns `None` — instead of
failing with an `UnknownMode`/`InvalidMode` error. -/
theorem C9_counterexample_unknown_mode_silent :
    analysis_handler "bogus" 0 0 0 1 0 0 0 0 0 0 1 0 0 0 0 0 1 "Linear" = .ok none := by
  norm_num [analysis_handler, convert_percentages_to_decimal, calculate_loan_details,
    List.range_succ, show ("Linear" = "Annuity") = False by simp,
    show ("bogus" = "Break-even Analysis") = False by simp,
    show ("bogus" = "Overall Cash Flow Analysis") = False by simp]

/-- C9 (amended): for any mode other than the two defined analysis modes,
`analysis_handler` performs no analysis and returns no result (Python's
implicit `None`), raising no error at all, provided the loan computation (which
runs before the mode dispatch) succeeds. -/
theorem C9_unknown_mode_returns_none (mode : String)
    (house_value loan_percentage loan_rate_percentage : ℚ) (loan_years : ℕ)
    (appreciation_rate_percentage initial_maintenance_cost
      maintenance_inflation_rate_percentage initial_rent rent_inflation_rate_percentage
      sell_tax_rate_percentage : ℚ)
    (max_years : ℕ)
    (initial_investment annual_salary salary_growth_rate_percentage
      opportunity_cost_rate_percentage annual_expenditure : ℚ)
    (which_year_to_sell : ℕ) (mortgage_type : String) (loanResult : ℚ × ℚ × List ℚ)
    (hm1 : mode ≠ "Break-even Analysis") (hm2 : mode ≠ "Overall Cash Flow Analysis")
    (hok : calculate_loan_details house_value loan_percentage (loan_rate_percentage / 100)
      loan_years mortgage_type = .ok loanResult) :
    analysis_handler mode house_value loan_percentage loan_rate_percentage loan_years
      appreciation_rate_percentage initial_maintenance_cost
      maintenance_inflation_rate_percentage initial_rent rent_inflation_rate_percentage
      sell_tax_rate_percentage max_years initial_investment annual_salary
      salary_growth_rate_percentage opportunity_cost_rate_percentage annual_expenditure
      which_year_to_sell mortgage_type = .ok none := by
  obtain ⟨dp, la, mp⟩ := loanResult
  unfold analysis_handler convert_percentages_to_decimal
  simp only [List.map]
  rw [hok]
  simp only [if_neg hm1, if_neg hm2]

/-- C9 witness: instantiates `C9_unknown_mode_returns_none` at the concrete
input of the counterexample. -/
theorem C9_unknown_mode_returns_none_witness :
    analysis_handler "unknown" 0 0 0 1 0 0 0 0 0 0 1 0 0 0 0 0 1 "Linear" = .ok none :=
  C9_unknown_mode_returns_none "unknown" 0 0 0 1 0 0 0 0 0 0 1 0 0 0 0 0 1 "Linear"
    (0, 0, List.replicate 12 0) (by simp) (by simp)
    (by norm_num [calculate_loan_details, List.range_succ, List.replicate,
      show ("Linear" = "Annuity") = False by simp])

/-! Section: C3: break-even year -/

/-- `determine_break_even_year` equals: find the first zip position with
`own < rent`, then index into `years`. -/
theorem determine_break_even_year_eq (rs os : List ℚ) (ys : List ℕ) :
    determine_break_even_year rs os ys =
      match firstBE rs os with
      | none => .ok none
      | some i =>
        match ys[i]? with
        | some y => .ok (some y)
        | none => .error .indexError := by
  induction rs generalizing os ys with
  | nil => cases os <;> simp [determine_break_even_year, firstBE]
  | cons r rs ih =>
    cases os with
    | nil => simp [determine_break_even_year, firstBE]
    | cons o os =>
      by_cases h : o < r
      · cases ys with
        | nil => simp [determine_break_even_year, firstBE, if_pos h]
        | cons y ys => simp [determine_break_even_year, firstBE, if_pos h]
      · have htail : ∀ i : ℕ, ys.tail[i]? = ys[i + 1]? := by
          intro i; cases ys <;> simp
        simp only [determine_break_even_year, firstBE, if_neg h, ih]
        cases hfb : firstBE rs os with
        | none => simp
        | some i => simp [htail i]

/-- `firstBE` returns `some i` exactly when `i` is an in-range position with
`own < rent` and no earlier position satisfies it. -/
theorem firstBE_eq_some_iff (rs os : List ℚ) (i : ℕ) :
    firstBE rs os = some i ↔
      i < rs.length ∧ i < os.length ∧ os.getD i 0 < rs.getD i 0
        ∧ ∀ j < i, ¬ os.getD j 0 < rs.getD j 0 := by
  induction rs generalizing os i with
  | nil => cases os <;> simp [firstBE]
  | cons r rs ih =>
    cases os with
    | nil => simp [firstBE]
    | cons o os =>
      by_cases h : o < r
      · rw [firstBE, if_pos h]
        constructor
        · intro he
          injection he with he
          subst he
          exact ⟨Nat.succ_pos _, Nat.succ_pos _, by simpa using h, by omega⟩
        · rintro ⟨-, -, h3, h4⟩
          have hi0 : i = 0 := by
            by_contra hne
            exact h4 0 (Nat.pos_of_ne_zero hne) (by simpa using h)
          subst hi0
          rfl
      · rw [firstBE, if_neg h]
        constructor
        · intro he
          rw [Option.map_eq_some'] at he
          obtain ⟨i', hfb, rfl⟩ := he
          obtain ⟨h1, h2, h3, h4⟩ := (ih os i').mp hfb
          refine ⟨Nat.succ_lt_succ h1, Nat.succ_lt_succ h2, by simpa using h3,
            fun j hj => ?_⟩
          cases j with
          | zero => simpa using h
          | succ j => simpa using h4 j (by omega)
        · rintro ⟨h1, h2, h3, h4⟩
          cases i with
          | zero => exact absurd (by simpa using h3) h
          | succ i' =>
            simp only [List.length_cons] at h1 h2
            rw [Option.map_eq_some']
            exact ⟨i', (ih os i').mpr ⟨by omega, by omega, by simpa using h3,
              fun j hj => by simpa using h4 (j + 1) (by omega)⟩, rfl⟩

/-- `firstBE` returns `none` exactly when no in-range position has
`own < rent`. -/
theorem firstBE_eq_none_iff (rs os : List ℚ) :
    firstBE rs os = none ↔
      ∀ i, i < rs.length → i < os.length → ¬ os.getD i 0 < rs.getD i 0 := by
  induction rs generalizing os with
  | nil => cases os <;> simp [firstBE]
  | cons r rs ih =>
    cases os with
    | nil => simp [firstBE]
    | cons o os =>
      by_cases h : o < r
      · rw [firstBE, if_pos h]
        simp only [reduceCtorEq, false_iff, not_forall]
        exact ⟨0, Nat.succ_pos _, Nat.succ_pos _, by simpa using h⟩
      · rw [firstBE, if_neg h, Option.map_eq_none', ih]
        constructor
        · intro hall i hi1 hi2
          simp only [List.length_cons] at hi1 hi2
          cases i with
          | zero => simpa using h
          | succ i => simpa using hall i (by omega) (by omega)
        · intro hall i hi1 hi2
          simpa using hall (i + 1) (by simp only [List.length_cons]; omega)
            (by simp only [List.length_cons]; omega)

/-- C3: over the handler's `years = [1..n]` and equal-length cost series,
`determine_break_even_year` returns `some y` exactly when `y` is the first
1-indexed year with owning cumulative cost strictly below renting cumulative
cost, and returns `none` exactly when no year within the horizon satisfies the
strict inequality — in particular a year with `own == rent` is never
returned. -/
theorem C3_break_even_first_strict_year (rents owns : List ℚ) (n : ℕ)
    (h1 : rents.length = n) (h2 : owns.length = n) :
    (∀ y, determine_break_even_year rents owns ((List.range n).map (fun i => i + 1))
        = .ok (some y)
      ↔ 1 ≤ y ∧ y ≤ n ∧ owns.getD (y - 1) 0 < rents.getD (y - 1) 0
        ∧ ∀ j < y - 1, ¬ owns.getD j 0 < rents.getD j 0)
    ∧ (determine_break_even_year rents owns ((List.range n).map (fun i => i + 1))
        = .ok none
      ↔ ∀ j < n, ¬ owns.getD j 0 < rents.getD j 0) := by
  have hyi : ∀ i, i < n → ((List.range n).map (fun i => i + 1))[i]? = some (i + 1) := by
    intro i hi
    simp [List.getElem?_map, List.getElem?_range hi]
  rw [determine_break_even_year_eq]
  constructor
  · intro y
    constructor
    · intro he
      cases hfb : firstBE rents owns with
      | none => simp only [hfb] at he; simp at he
      | some i =>
        simp only [hfb] at he
        obtain ⟨hi1, hi2, hlt, hfirst⟩ := (firstBE_eq_some_iff rents owns i).mp hfb
        have hin : i < n := h1 ▸ hi1
        simp only [hyi i hin] at he
        simp only [Except.ok.injEq, Option.some.injEq] at he
        subst he
        exact ⟨by omega, by omega, by simpa using hlt, fun j hj => hfirst j (by omega)⟩
    · rintro ⟨hy1, hy2, hlt, hfirst⟩
      have hfb : firstBE rents owns = some (y - 1) :=
        (firstBE_eq_some_iff rents owns (y - 1)).mpr ⟨by omega, by omega, hlt, hfirst⟩
      simp only [hfb, hyi (y - 1) (show y - 1 < n by omega)]
      have hy : y - 1 + 1 = y := by omega
      rw [hy]
  · constructor
    · intro he
      cases hfb : firstBE rents owns with
      | none =>
        exact fun j hj => (firstBE_eq_none_iff rents owns).mp hfb j (by omega) (by omega)
      | some i =>
        simp only [hfb] at he
        obtain ⟨hi1, -, -, -⟩ := (firstBE_eq_some_iff rents owns i).mp hfb
        simp only [hyi i (h1 ▸ hi1)] at he
        simp at he
    · intro hall
      have hfb : firstBE rents owns = none :=
        (firstBE_eq_none_iff rents owns).mpr (fun i hi _ => hall i (h1 ▸ hi))
      simp only [hfb]

/-- C3 witness: with renting costs `[10, 10]` and owning costs `[11, 5]` the
break-even year is 2 (year 1 has own > rent, year 2 has own < rent). -/
theorem C3_break_even_first_strict_year_witness :
    determine_break_even_year [10, 10] [11, 5] ((List.range 2).map (fun i => i + 1))
      = .ok (some 2) :=
  ((C3_break_even_first_strict_year [10, 10] [11, 5] 2 rfl rfl).1 2).mpr
    ⟨by norm_num, by norm_num, by norm_num,
     fun j hj => by
       have hj0 : j = 0 := by omega
       subst hj0
       norm_num⟩

/-! Section: C4: the two sale-proceeds conventions -/

/-- C4 counterexample: with `houseValue = 100000`, `appreciationRate = 3.7%`,
`sellTaxRate = 0`, zero owning costs and `year = 3`, the net-of-ownership
variant stores `111515.77` — the value of the claimed formula
`value − owningCost − profit×tax` (which is `111515.7653`) rounded to two
decimals — so the stored entry is not exactly the claimed formula. -/
theorem C4_counterexample_net_entry_is_rounded :
    calculate_post_sale_cash 100000 (37 / 1000) 0 [0, 0, 0] [3]
      = .ok [("3", 11151577 / 100)]
    ∧ 100000 * ((1 : ℚ) + 37 / 1000) ^ 3 - 0
        - (100000 * ((1 : ℚ) + 37 / 1000) ^ 3 - 100000) * 0 = 1115157653 / 10000
    ∧ (11151577 / 100 : ℚ) ≠ 1115157653 / 10000 := by
  refine ⟨?_, by norm_num, by norm_num⟩
  norm_num [calculate_post_sale_cash, pyRound2, Int.floor_eq_iff,
    show toString (3 : ℕ) = "3" from rfl]

/-- C4 (amended): the two sale-proceeds operations use distinct exponent
conventions exactly as claimed — the raw variant computes
`value = houseValue·(1+appreciation)^(y−1)` and returns
`value − (value − houseValue)·sellTaxRate`, and the net-of-ownership variant
computes `value = houseValue·(1+appreciation)^y` and stores
`value − owningCost[y] − (value − houseValue)·sellTaxRate` — except that the
net variant stores that amount rounded to two decimals (Python's
`round(·, 2)`). -/
theorem C4_sale_proceeds_exponent_conventions (house_value appreciation_rate
    sell_tax_rate : ℚ) (owning_costs : List ℚ) (years : List ℕ)
    (hin : ∀ y ∈ years, 1 ≤ y ∧ y ≤ owning_costs.length) :
    calculate_post_sale_raw_cash house_value appreciation_rate sell_tax_rate years
      = years.map (fun y => house_value * (1 + appreciation_rate) ^ (y - 1)
          - (house_value * (1 + appreciation_rate) ^ (y - 1) - house_value) * sell_tax_rate)
    ∧ calculate_post_sale_cash house_value appreciation_rate sell_tax_rate owning_costs years
      = .ok (years.map (fun y => (toString y,
          pyRound2 (house_value * (1 + appreciation_rate) ^ y - owning_costs.getD (y - 1) 0
            - (house_value * (1 + appreciation_rate) ^ y - house_value) * sell_tax_rate)))) := by
  constructor
  · rfl
  · induction years with
    | nil => rfl
    | cons y ys ih =>
      obtain ⟨hy1, hy2⟩ := hin y (List.mem_cons_self y ys)
      have hoc : owning_costs[y - 1]? = some (owning_costs.getD (y - 1) 0) :=
        getElem?_eq_some_getD (by omega)
      rw [calculate_post_sale_cash]
      simp only [hoc, ih (fun z hz => hin z (List.mem_cons_of_mem y hz)), List.map]

/-- C4 witness: instantiates `C4_sale_proceeds_exponent_conventions` at the
counterexample's concrete input. -/
theorem C4_sale_proceeds_exponent_conventions_witness :
    calculate_post_sale_raw_cash 100000 (37 / 1000) 0 [3]
      = [3].map (fun y => 100000 * ((1 : ℚ) + 37 / 1000) ^ (y - 1)
          - (100000 * ((1 : ℚ) + 37 / 1000) ^ (y - 1) - 100000) * 0)
    ∧ calculate_post_sale_cash 100000 (37 / 1000) 0 [0, 0, 0] [3]
      = .ok ([3].map (fun y => (toString y,
          pyRound2 (100000 * ((1 : ℚ) + 37 / 1000) ^ y - ([0, 0, 0] : List ℚ).getD (y - 1) 0
            - (100000 * ((1 : ℚ) + 37 / 1000) ^ y - 100000) * 0)))) :=
  C4_sale_proceeds_exponent_conventions 100000 (37 / 1000) 0 [0, 0, 0] [3]
    (fun y hy => by
      rw [List.mem_singleton] at hy
      subst hy
      norm_num)

/-! Section: C6: horizon beyond the loan term -/

/-- C6: `calculate_cumulative_costs` never fails (the slice clamps), and in
any year whose 12-month slice starts at or past the end of the payment
schedule the slice is empty, so that year's owning cost grows by the
maintenance term alone. -/
theorem C6_beyond_schedule_only_maintenance (house_value initial_rent
    rent_inflation_rate appreciation_rate initial_maintenance_cost
    maintenance_inflation_rate : ℚ) (monthly_payments : List ℚ)
    (max_sell_year : ℕ) (initial_investment : ℚ) (y : ℕ)
    (h2y : 2 ≤ y) (hmax : y ≤ max_sell_year)
    (hlen : monthly_payments.length ≤ (y - 1) * 12) :
    ((calculate_cumulative_costs house_value initial_rent rent_inflation_rate
        appreciation_rate initial_maintenance_cost maintenance_inflation_rate
        monthly_payments max_sell_year initial_investment).2).getD (y - 1) 0
      = ((calculate_cumulative_costs house_value initial_rent rent_inflation_rate
          appreciation_rate initial_maintenance_cost maintenance_inflation_rate
          monthly_payments max_sell_year initial_investment).2).getD (y - 2) 0
        + initial_maintenance_cost * (1 + maintenance_inflation_rate) ^ (y - 1) := by
  obtain ⟨z, rfl⟩ : ∃ z, y = z + 2 := ⟨y - 2, by omega⟩
  unfold calculate_cumulative_costs
  rw [getD_map_range _ (show z + 2 - 1 < max_sell_year by omega),
    getD_map_range _ (show z + 2 - 2 < max_sell_year by omega)]
  show cumulative_owning_cost initial_maintenance_cost maintenance_inflation_rate
      monthly_payments initial_investment (z + 1 + 1)
    = cumulative_owning_cost initial_maintenance_cost maintenance_inflation_rate
        monthly_payments initial_investment (z + 1)
      + initial_maintenance_cost * (1 + maintenance_inflation_rate) ^ (z + 1)
  rw [cumulative_owning_cost]
  have hslice : yearSlice monthly_payments (z + 1 + 1) = [] := by
    unfold yearSlice
    rw [List.drop_eq_nil_of_le (by simpa using hlen)]
    rfl
  rw [hslice]
  simp

/-- C6 witness: instantiates `C6_beyond_schedule_only_maintenance` with a
one-payment schedule, horizon 2 and year 2. -/
theorem C6_beyond_schedule_only_maintenance_witness :
    ((calculate_cumulative_costs 0 0 0 0 1 0 [1] 2 0).2).getD 1 0
      = ((calculate_cumulative_costs 0 0 0 0 1 0 [1] 2 0).2).getD 0 0
        + 1 * ((1 : ℚ) + 0) ^ 1 :=
  C6_beyond_schedule_only_maintenance 0 0 0 0 1 0 [1] 2 0 2
    (by norm_num) (by norm_num) (by norm_num)

/-! Section: C8: monotonicity of the cumulative-cost series -/

/-- C8: with non-negative initial rent, inflation rates, monthly payments and
initial maintenance cost, both series of `calculate_cumulative_costs` are
non-decreasing in the year, and the owning series starts at or above the
initial investment. -/
theorem C8_cumulative_series_monotone (house_value initial_rent
    rent_inflation_rate appreciation_rate initial_maintenance_cost
    maintenance_inflation_rate : ℚ) (monthly_payments : List ℚ)
    (max_sell_year : ℕ) (initial_investment : ℚ)
    (hr : 0 ≤ initial_rent) (hri : 0 ≤ rent_inflation_rate)
    (hm : 0 ≤ initial_maintenance_cost) (hmi : 0 ≤ maintenance_inflation_rate)
    (hpay : ∀ p ∈ monthly_payments, 0 ≤ p) :
    (∀ i, i + 1 < max_sell_year →
      ((calculate_cumulative_costs house_value initial_rent rent_inflation_rate
          appreciation_rate initial_maintenance_cost maintenance_inflation_rate
          monthly_payments max_sell_year initial_investment).1).getD i 0
        ≤ ((calculate_cumulative_costs house_value initial_rent rent_inflation_rate
            appreciation_rate initial_maintenance_cost maintenance_inflation_rate
            monthly_payments max_sell_year initial_investment).1).getD (i + 1) 0)
    ∧ (∀ i, i + 1 < max_sell_year →
      ((calculate_cumulative_costs house_value initial_rent rent_inflation_rate
          appreciation_rate initial_maintenance_cost maintenance_inflation_rate
          monthly_payments max_sell_year initial_investment).2).getD i 0
        ≤ ((calculate_cumulative_costs house_value initial_rent rent_inflation_rate
            appreciation_rate initial_maintenance_cost maintenance_inflation_rate
            monthly_payments max_sell_year initial_investment).2).getD (i + 1) 0)
    ∧ (1 ≤ max_sell_year → initial_investment
        ≤ ((calculate_cumulative_costs house_value initial_rent rent_inflation_rate
            appreciation_rate initial_maintenance_cost maintenance_inflation_rate
            monthly_payments max_sell_year initial_investment).2).getD 0 0) := by
  have hslice : ∀ year, 0 ≤ (yearSlice monthly_payments year).sum := by
    intro year
    exact List.sum_nonneg (fun p hp =>
      hpay p (List.mem_of_mem_drop (List.mem_of_mem_take hp)))
  have hrentstep : ∀ year : ℕ, 0 ≤ initial_rent * (1 + rent_inflation_rate) ^ year :=
    fun year => mul_nonneg hr (pow_nonneg (by linarith) year)
  have hmaintstep : ∀ year : ℕ,
      0 ≤ initial_maintenance_cost * (1 + maintenance_inflation_rate) ^ year :=
    fun year => mul_nonneg hm (pow_nonneg (by linarith) year)
  unfold calculate_cumulative_costs
  refine ⟨fun i hi => ?_, fun i hi => ?_, fun h1 => ?_⟩
  · rw [getD_map_range _ (by omega), getD_map_range _ (by omega)]
    have hstep : cumulative_rent_cost initial_rent rent_inflation_rate (i + 1 + 1)
        = cumulative_rent_cost initial_rent rent_inflation_rate (i + 1)
          + initial_rent * (1 + rent_inflation_rate) ^ (i + 1) := rfl
    rw [hstep]
    linarith [hrentstep (i + 1)]
  · rw [getD_map_range _ (by omega), getD_map_range _ (by omega)]
    have hstep : cumulative_owning_cost initial_maintenance_cost maintenance_inflation_rate
        monthly_payments initial_investment (i + 1 + 1)
        = cumulative_owning_cost initial_maintenance_cost maintenance_inflation_rate
            monthly_payments initial_investment (i + 1)
          + ((yearSlice monthly_payments (i + 1 + 1)).sum
            + initial_maintenance_cost * (1 + maintenance_inflation_rate) ^ (i + 1)) := rfl
    rw [hstep]
    linarith [hslice (i + 1 + 1), hmaintstep (i + 1)]
  · rw [getD_map_range _ (by omega)]
    have hstep : cumulative_owning_cost initial_maintenance_cost maintenance_inflation_rate
        monthly_payments initial_investment (0 + 1)
        = initial_investment
          + ((yearSlice monthly_payments (0 + 1)).sum
            + initial_maintenance_cost * (1 + maintenance_inflation_rate) ^ 0) := rfl
    rw [hstep]
    linarith [hslice (0 + 1), hmaintstep 0]

/-- C8 witness: instantiates `C8_cumulative_series_monotone` at a concrete
input (rent 1, maintenance 1, payments `[1, 1]`, horizon 2). -/
theorem C8_cumulative_series_monotone_witness :
    ((calculate_cumulative_costs 0 1 0 0 1 0 [1, 1] 2 5).1).getD 0 0
      ≤ ((calculate_cumulative_costs 0 1 0 0 1 0 [1, 1] 2 5).1).getD 1 0 :=
  (C8_cumulative_series_monotone 0 1 0 0 1 0 [1, 1] 2 5 (by norm_num) (by norm_num)
    (by norm_num) (by norm_num)
    (fun p hp => by
      simp only [List.mem_cons, List.not_mem_nil, or_false] at hp
      rcases hp with h | h <;> rw [h] <;> norm_num)).1 0 (by norm_num)

/-- `bsSeq` before the sell year mirrors the buy sequence. -/
theorem bsSeq_pre (c : CFCtx) (z : ℕ) (h : z + 1 < c.which_year_to_sell) :
    bsSeq c (z + 1) = buySeq c (z + 1) := by
  rw [bsSeq, if_pos h]

/-- `bsSeq` at the sell year: buy balance plus sale proceeds minus the
remaining scheduled payments. -/
theorem bsSeq_sale (c : CFCtx) (z : ℕ) (h : z + 1 = c.which_year_to_sell) :
    bsSeq c (z + 1) = buySeq c (z + 1) + c.sale_after_tax.getD z 0
      - (c.monthly_payments.drop ((z + 1) * 12)).sum := by
  rw [bsSeq, if_neg (by omega), if_pos h]

/-- `bsSeq` after the sell year: previous entry plus net savings minus
maintenance, compounded. -/
theorem bsSeq_post (c : CFCtx) (z : ℕ) (h : c.which_year_to_sell < z + 1) :
    bsSeq c (z + 1) = (bsSeq c z + (netSavings c (z + 1) - c.maintenance_costs.getD z 0))
      * (1 + c.opportunity_cost_rate) := by
  rw [bsSeq, if_neg (by omega), if_neg (by omega)]

/-! Section: C5: the buy-and-sell transition -/

/-- C5: in `calculate_cash_flow_analysis` (with a sell year ≥ 1 and
maintenance/sale lists covering the simulated years), every year before the
sell year copies the buy series into the buy-and-sell series; at the sell year
the entry is the buy-series value plus that year's sale proceeds minus the sum
of all scheduled monthly payments after that year; and every later year is
computed from the previous buy-and-sell entry alone (net savings minus
maintenance, then opportunity-cost compounding) — the sale proceeds are never
added again. -/
theorem C5_buy_and_sell_transition (annual_salary salary_growth_rate
    opportunity_cost_rate : ℚ) (monthly_payments : List ℚ)
    (initial_rent rent_inflation_rate : ℚ) (max_years : ℕ) (initial_investment : ℚ)
    (maintenance_costs : List ℚ) (annual_expenditure : ℚ) (sale_after_tax : List ℚ)
    (which_year_to_sell : ℕ) (R B BS : List ℚ)
    (hm : max_years ≤ maintenance_costs.length)
    (hsy : 1 ≤ which_year_to_sell)
    (hsale : which_year_to_sell ≤ max_years → which_year_to_sell ≤ sale_after_tax.length)
    (hok : calculate_cash_flow_analysis annual_salary salary_growth_rate
      opportunity_cost_rate monthly_payments initial_rent rent_inflation_rate max_years
      initial_investment maintenance_costs annual_expenditure sale_after_tax
      which_year_to_sell = .ok (R, B, BS)) :
    (∀ y, 1 ≤ y → y < which_year_to_sell → y ≤ max_years →
      BS.getD (y - 1) 0 = B.getD (y - 1) 0)
    ∧ (which_year_to_sell ≤ max_years →
      BS.getD (which_year_to_sell - 1) 0
        = B.getD (which_year_to_sell - 1) 0
          + sale_after_tax.getD (which_year_to_sell - 1) 0
          - (monthly_payments.drop (which_year_to_sell * 12)).sum)
    ∧ (∀ y, which_year_to_sell < y → y ≤ max_years →
      BS.getD (y - 1) 0 = (BS.getD (y - 2) 0
        + (annual_salary * (1 + salary_growth_rate) ^ y - annual_expenditure
          - maintenance_costs.getD (y - 1) 0)) * (1 + opportunity_cost_rate)) := by
  have hrun := cfRun_ok ⟨annual_salary, salary_growth_rate, opportunity_cost_rate,
    monthly_payments, initial_rent, rent_inflation_rate, initial_investment,
    maintenance_costs, annual_expenditure, sale_after_tax, which_year_to_sell⟩
    max_years hm hsy hsale
  unfold calculate_cash_flow_analysis at hok
  rw [hrun] at hok
  simp only [Except.map, Except.ok.injEq, Prod.mk.injEq] at hok
  obtain ⟨hR, hB, hBS⟩ := hok
  subst hR hB hBS
  refine ⟨fun y hy1 hy2 hy3 => ?_, fun hsell => ?_, fun y hy1 hy2 => ?_⟩
  · obtain ⟨z, rfl⟩ : ∃ z, y = z + 1 := ⟨y - 1, by omega⟩
    rw [getD_map_range _ (show z + 1 - 1 < max_years by omega),
      getD_map_range _ (show z + 1 - 1 < max_years by omega)]
    exact bsSeq_pre _ z hy2
  · obtain ⟨z, rfl⟩ : ∃ z, which_year_to_sell = z + 1 := ⟨which_year_to_sell - 1, by omega⟩
    rw [getD_map_range _ (show z + 1 - 1 < max_years by omega),
      getD_map_range _ (show z + 1 - 1 < max_years by omega)]
    exact bsSeq_sale _ z rfl
  · obtain ⟨z, rfl⟩ : ∃ z, y = z + 1 := ⟨y - 1, by omega⟩
    rw [getD_map_range _ (show z + 1 - 1 < max_years by omega),
      getD_map_range _ (show z + 1 - 2 < max_years by omega)]
    rw [show z + 1 - 2 + 1 = z from by omega]
    exact bsSeq_post _ z hy1

/-- C5 witness: instantiates `C5_buy_and_sell_transition` at a concrete run
(horizon 2, sell in year 1, sale proceeds 7): the sale-year entry equals the
buy entry plus the proceeds minus the (empty) remaining payments. -/
theorem C5_buy_and_sell_transition_witness :
    ([7, 7] : List ℚ).getD 0 0
      = ([0, 0] : List ℚ).getD 0 0 + ([7, 7] : List ℚ).getD 0 0
        - (([] : List ℚ).drop 12).sum :=
  (C5_buy_and_sell_transition 0 0 0 [] 0 0 2 0 [0, 0] 0 [7, 7] 1 [0, 0] [0, 0] [7, 7]
    (by norm_num) (by norm_num) (fun _ => by norm_num)
    (by norm_num [calculate_cash_flow_analysis, cfRun, cfStep, yearSlice,
      Except.bind, Except.map])).2.1 (by norm_num)

/-! Section: C10: where the opportunity-cost factor is applied -/

/-- C10: in `calculate_cash_flow_analysis` every per-year update of the rent
series, the buy series, and the post-sale part of the buy-and-sell series
multiplies the running balance by `(1 + opportunityCostRate)` after adding the
year's cash delta, whereas the sale-year entry of the buy-and-sell series is
appended as `buy + saleProceeds − remainingPayments` with no such factor. -/
theorem C10_sale_year_entry_not_compounded (annual_salary salary_growth_rate
    opportunity_cost_rate : ℚ) (monthly_payments : List ℚ)
    (initial_rent rent_inflation_rate : ℚ) (max_years : ℕ) (initial_investment : ℚ)
    (maintenance_costs : List ℚ) (annual_expenditure : ℚ) (sale_after_tax : List ℚ)
    (which_year_to_sell : ℕ) (R B BS : List ℚ)
    (hm : max_years ≤ maintenance_costs.length)
    (hsy : 1 ≤ which_year_to_sell)
    (hsale : which_year_to_sell ≤ max_years → which_year_to_sell ≤ sale_after_tax.length)
    (hok : calculate_cash_flow_analysis annual_salary salary_growth_rate
      opportunity_cost_rate monthly_payments initial_rent rent_inflation_rate max_years
      initial_investment maintenance_costs annual_expenditure sale_after_tax
      which_year_to_sell = .ok (R, B, BS)) :
    (∀ y, 1 ≤ y → y ≤ max_years →
      R.getD (y - 1) 0 = ((if y = 1 then initial_investment else R.getD (y - 2) 0)
        + (annual_salary * (1 + salary_growth_rate) ^ y - annual_expenditure
          - initial_rent * (1 + rent_inflation_rate) ^ (y - 1)))
        * (1 + opportunity_cost_rate))
    ∧ (∀ y, 1 ≤ y → y ≤ max_years →
      B.getD (y - 1) 0 = ((if y = 1 then initial_investment else B.getD (y - 2) 0)
        + (annual_salary * (1 + salary_growth_rate) ^ y - annual_expenditure
          - ((yearSlice monthly_payments y).sum + maintenance_costs.getD (y - 1) 0)))
        * (1 + opportunity_cost_rate))
    ∧ (∀ y, which_year_to_sell < y → y ≤ max_years →
      BS.getD (y - 1) 0 = (BS.getD (y - 2) 0
        + (annual_salary * (1 + salary_growth_rate) ^ y - annual_expenditure
          - maintenance_costs.getD (y - 1) 0)) * (1 + opportunity_cost_rate))
    ∧ (which_year_to_sell ≤ max_years →
      BS.getD (which_year_to_sell - 1) 0
        = B.getD (which_year_to_sell - 1) 0
          + sale_after_tax.getD (which_year_to_sell - 1) 0
          - (monthly_payments.drop (which_year_to_sell * 12)).sum) := by
  have hrun := cfRun_ok ⟨annual_salary, salary_growth_rate, opportunity_cost_rate,
    monthly_payments, initial_rent, rent_inflation_rate, initial_investment,
    maintenance_costs, annual_expenditure, sale_after_tax, which_year_to_sell⟩
    max_years hm hsy hsale
  unfold calculate_cash_flow_analysis at hok
  rw [hrun] at hok
  simp only [Except.map, Except.ok.injEq, Prod.mk.injEq] at hok
  obtain ⟨hR, hB, hBS⟩ := hok
  subst hR hB hBS
  refine ⟨fun y hy1 hy2 => ?_, fun y hy1 hy2 => ?_, fun y hy1 hy2 => ?_, fun hsell => ?_⟩
  · by_cases hy : y = 1
    · subst hy
      rw [getD_map_range _ (show 1 - 1 < max_years by omega), if_pos rfl]
      rfl
    · obtain ⟨z, rfl⟩ : ∃ z, y = z + 1 := ⟨y - 1, by omega⟩
      rw [getD_map_range _ (show z + 1 - 1 < max_years by omega), if_neg hy,
        getD_map_range _ (show z + 1 - 2 < max_years by omega),
        show z + 1 - 2 + 1 = z from by omega]
      rfl
  · by_cases hy : y = 1
    · subst hy
      rw [getD_map_range _ (show 1 - 1 < max_years by omega), if_pos rfl]
      rfl
    · obtain ⟨z, rfl⟩ : ∃ z, y = z + 1 := ⟨y - 1, by omega⟩
      rw [getD_map_range _ (show z + 1 - 1 < max_years by omega), if_neg hy,
        getD_map_range _ (show z + 1 - 2 < max_years by omega),
        show z + 1 - 2 + 1 = z from by omega]
      rfl
  · obtain ⟨z, rfl⟩ : ∃ z, y = z + 1 := ⟨y - 1, by omega⟩
    rw [getD_map_range _ (show z + 1 - 1 < max_years by omega),
      getD_map_range _ (show z + 1 - 2 < max_years by omega),
      show z + 1 - 2 + 1 = z from by omega]
    exact bsSeq_post _ z hy1
  · obtain ⟨z, rfl⟩ : ∃ z, which_year_to_sell = z + 1 := ⟨which_year_to_sell - 1, by omega⟩
    rw [getD_map_range _ (show z + 1 - 1 < max_years by omega),
      getD_map_range _ (show z + 1 - 1 < max_years by omega)]
    exact bsSeq_sale _ z rfl

/-- C10 witness: instantiates `C10_sale_year_entry_not_compounded` at the
concrete run of the C5 witness, extracting the year-1 rent-series recurrence. -/
theorem C10_sale_year_entry_not_compounded_witness :
    ([0, 0] : List ℚ).getD 0 0
      = ((if (1 : ℕ) = 1 then (0 : ℚ) else ([0, 0] : List ℚ).getD 0 0)
        + ((0 : ℚ) * (1 + 0) ^ 1 - 0 - 0 * ((1 : ℚ) + 0) ^ 0)) * (1 + 0) :=
  (C10_sale_year_entry_not_compounded 0 0 0 [] 0 0 2 0 [0, 0] 0 [7, 7] 1 [0, 0] [0, 0]
    [7, 7] (by norm_num) (by norm_num) (fun _ => by norm_num)
    (by norm_num [calculate_cash_flow_analysis, cfRun, cfStep, yearSlice,
      Except.bind, Except.map])).1 1 (by norm_num) (by norm_num)
